import Mathlib

/-!
Verification of the religious-education backend (src/main.py, src/schemas.py).

Shallow embedding of the FastAPI handlers in `src/main.py` together with the
Pydantic schemas of `src/schemas.py`.  The document store (`database.py`,
backed by MongoDB) is an external collaborator and is not part of `src/`; its
operations are modelled from the spec (§1, §2): insertion with a
store-generated identifier, equality-filtered retrieval returning documents in
store order, and `update_one` with MongoDB `$set` semantics (every field named
in the patch is written onto the first matching document, fields not named are
left untouched).  Numeric score arithmetic is modelled over `ℚ` with Python's
round-half-to-even, per spec §4.5 step 4.
-/

/-- An HTTP error as raised by `HTTPException(status_code=…, detail=…)`. -/
structure HttpError where
  status : Nat
  detail : String
deriving DecidableEq

/-- A BSON-ish value stored in a schemaless document.  Only the value shapes
this application reads or writes are modelled. -/
inductive BVal where
  | vnull
  | vstr (s : String)
  | vint (n : Int)
  | vstrList (l : List String)
  | vintList (l : List Int)
deriving DecidableEq

/-- A schemaless stored document: a finite map from field names to values,
represented as an association list (first binding wins on lookup). -/
abbrev Doc := List (String × BVal)

/-- First-binding lookup of a field in a document. -/
def lookupField (d : Doc) (k : String) : Option BVal :=
  match d with
  | [] => none
  | (k0, v0) :: rest => if k0 = k then some v0 else lookupField rest k

/-- MongoDB `$set` of a single field: overwrite the binding if the field is
present, append it otherwise. -/
def setField (d : Doc) (k : String) (v : BVal) : Doc :=
  match d with
  | [] => [(k, v)]
  | (k0, v0) :: rest => if k0 = k then (k, v) :: rest else (k0, v0) :: setField rest k v

/-- MongoDB `$set` of a whole patch document, field by field. -/
def setFields (d : Doc) (patch : List (String × BVal)) : Doc :=
  patch.foldl (fun acc kv => setField acc kv.1 kv.2) d

/-- Modelled from the spec (§2, Document Store Adapter): `update_one` with a
`$set` patch writes the patch fields onto the first document whose `_id`
equals the given identifier and reports the matched count (0 or 1; `_id` is
unique in the store). -/
def update_one (store : List (String × Doc)) (mid : String) (patch : List (String × BVal)) :
    List (String × Doc) × Nat :=
  match store with
  | [] => ([], 0)
  | (i, d) :: rest =>
    if i = mid then ((i, setFields d patch) :: rest, 1)
    else ((i, d) :: (update_one rest mid patch).1, (update_one rest mid patch).2)

/-- Python `str.lower` (ASCII case folding suffices for the headers and hex
identifiers this application handles). -/
def strLower (s : String) : String := ⟨s.data.map Char.toLower⟩

/-- Python `str.startswith`: Boolean list-level predicate used to model it. -/
def startsWithL : List Char → List Char → Bool
  | [], _ => true
  | _ :: _, [] => false
  | p :: ps, c :: cs => (p == c) && startsWithL ps cs

/-- Python `s.split(" ", 1)[1]`: everything after the first space (empty when
the string has no space; the handlers only take this branch when a space is
known to exist). -/
def afterFirstSpace : List Char → List Char
  | [] => []
  | c :: rest => if c = ' ' then rest else afterFirstSpace rest

/-- Hexadecimal digit, either case, as accepted by `bytes.fromhex`. -/
def isHexChar (c : Char) : Bool :=
  (('0' ≤ c) && (c ≤ '9')) || (('a' ≤ c) && (c ≤ 'f')) || (('A' ≤ c) && (c ≤ 'F'))

/-- Validity of a BSON ObjectId string: 24 hexadecimal characters
(`bson.ObjectId(s)` accepts exactly the length-24 hex strings and raises
`InvalidId` otherwise). -/
def isValidObjectId (s : String) : Bool :=
  (s.data.length == 24) && s.data.all isHexChar

/-- `to_object_id` of src/main.py lines 85–89: parse the identifier string or
fail with 400 "ID tidak valid".  An `ObjectId` compares by its 12 bytes, so
the parsed identifier is represented by the case-normalised hex string. -/
def to_object_id (id_str : String) : Except HttpError String :=
  if isValidObjectId id_str then .ok (strLower id_str)
  else .error ⟨400, "ID tidak valid"⟩

/-- `require_admin` of src/main.py lines 64–70: the bearer-token auth gate. -/
def require_admin (adminToken : String) (authorization : Option String) :
    Except HttpError Bool :=
  match authorization with
  | none => .error ⟨401, "Unauthorized"⟩
  | some a =>
    if a.data.isEmpty || !(startsWithL "bearer ".data (a.data.map Char.toLower)) then
      .error ⟨401, "Unauthorized"⟩
    else
      let token : String := ⟨afterFirstSpace a.data⟩
      if token ≠ adminToken then .error ⟨401, "Unauthorized"⟩
      else .ok true

/-- `login` of src/main.py lines 73–77: exact password match yields the admin
token, otherwise 401. -/
def login (adminPassword adminToken : String) (password : String) :
    Except HttpError String :=
  if password ≠ adminPassword then .error ⟨401, "Password salah"⟩
  else .ok adminToken

/-- Schema `Material` (src/schemas.py). -/
structure Material where
  title : String
  content : String
  category : Option String
  thumbnail_url : Option String
deriving DecidableEq

/-- Schema `Video` (src/schemas.py). -/
structure Video where
  title : String
  url : String
  description : Option String
deriving DecidableEq

/-- Schema `Photo` (src/schemas.py). -/
structure Photo where
  title : String
  image_url : String
  caption : Option String
deriving DecidableEq

/-- Schema `Quiz` (src/schemas.py). -/
structure Quiz where
  title : String
  description : Option String
deriving DecidableEq

/-- Schema `Question` (src/schemas.py): request body for question creation
and update. -/
structure Question where
  quiz_id : String
  text : String
  options : List String
  correct_index : Int
deriving DecidableEq

/-- Pydantic `model_dump` of an optional string field: `None` becomes null. -/
def optStr : Option String → BVal
  | none => .vnull
  | some s => .vstr s

/-- `Material.model_dump()`. -/
def Material.model_dump (m : Material) : List (String × BVal) :=
  [("title", .vstr m.title), ("content", .vstr m.content),
   ("category", optStr m.category), ("thumbnail_url", optStr m.thumbnail_url)]

/-- `Video.model_dump()`. -/
def Video.model_dump (v : Video) : List (String × BVal) :=
  [("title", .vstr v.title), ("url", .vstr v.url),
   ("description", optStr v.description)]

/-- `Photo.model_dump()`. -/
def Photo.model_dump (p : Photo) : List (String × BVal) :=
  [("title", .vstr p.title), ("image_url", .vstr p.image_url),
   ("caption", optStr p.caption)]

/-- `Quiz.model_dump()`. -/
def Quiz.model_dump (q : Quiz) : List (String × BVal) :=
  [("title", .vstr q.title), ("description", optStr q.description)]

/-- A stored question document.  The store is schemaless, so every schema
field may be absent; `text` and `correct_index` are read with `q.get`, whose
default is `None` resp. `-1`, and `options` is read with default `[]` (an
absent `options` is identified with the empty list).  Documents written by
this application (`create_question`) always carry all fields. -/
structure QuestionDoc where
  quiz_id : String
  text : Option String
  correct_index : Option Int
  options : List String
deriving DecidableEq, Inhabited

/-- Store of content documents of one collection: identifier–document pairs
in insertion order. -/
abbrev DocStore := List (String × Doc)

/-- Store of the `question` collection: identifier–document pairs in
insertion order. -/
abbrev QStore := List (String × QuestionDoc)

/-- Modelled from the spec (§1, §2): `get_documents("question", {"quiz_id": qid})`
returns, in store order, the documents whose `quiz_id` field equals the given
string (exact string match, spec §4.4). -/
def get_documents_question (store : QStore) (qid : String) : List QuestionDoc :=
  (store.filter (fun e => e.2.quiz_id == qid)).map (fun e => e.2)

/-- `create_material` (src/main.py lines 93–96).  Modelled from the spec:
`create_document` inserts the dumped body under a store-generated fresh
identifier `newId` and returns that identifier. -/
def create_material (adminToken : String) (auth : Option String) (material : Material)
    (newId : String) (store : DocStore) : Except HttpError String × DocStore :=
  match require_admin adminToken auth with
  | .error e => (.error e, store)
  | .ok _ => (.ok newId, store ++ [(newId, material.model_dump)])

/-- `create_video` (src/main.py lines 117–120). -/
def create_video (adminToken : String) (auth : Option String) (video : Video)
    (newId : String) (store : DocStore) : Except HttpError String × DocStore :=
  match require_admin adminToken auth with
  | .error e => (.error e, store)
  | .ok _ => (.ok newId, store ++ [(newId, video.model_dump)])

/-- `create_photo` (src/main.py lines 132–135). -/
def create_photo (adminToken : String) (auth : Option String) (photo : Photo)
    (newId : String) (store : DocStore) : Except HttpError String × DocStore :=
  match require_admin adminToken auth with
  | .error e => (.error e, store)
  | .ok _ => (.ok newId, store ++ [(newId, photo.model_dump)])

/-- `create_quiz` (src/main.py lines 147–150). -/
def create_quiz (adminToken : String) (auth : Option String) (quiz : Quiz)
    (newId : String) (store : DocStore) : Except HttpError String × DocStore :=
  match require_admin adminToken auth with
  | .error e => (.error e, store)
  | .ok _ => (.ok newId, store ++ [(newId, quiz.model_dump)])

/-- `update_material` (src/main.py lines 107–113): auth gate, identifier
parse, `update_one` with a `$set` of the dumped body, 404 when nothing
matched, `{updated: true}` otherwise. -/
def update_material (adminToken : String) (auth : Option String) (material_id : String)
    (material : Material) (store : DocStore) : Except HttpError Bool × DocStore :=
  match require_admin adminToken auth with
  | .error e => (.error e, store)
  | .ok _ =>
    match to_object_id material_id with
    | .error e => (.error e, store)
    | .ok mid =>
      let r := update_one store mid material.model_dump
      if r.2 = 0 then (.error ⟨404, "Materi tidak ditemukan"⟩, r.1)
      else (.ok true, r.1)

/-- `update_quiz` (src/main.py lines 161–167). -/
def update_quiz (adminToken : String) (auth : Option String) (quiz_id : String)
    (quiz : Quiz) (store : DocStore) : Except HttpError Bool × DocStore :=
  match require_admin adminToken auth with
  | .error e => (.error e, store)
  | .ok _ =>
    match to_object_id quiz_id with
    | .error e => (.error e, store)
    | .ok qid =>
      let r := update_one store qid quiz.model_dump
      if r.2 = 0 then (.error ⟨404, "Kuis tidak ditemukan"⟩, r.1)
      else (.ok true, r.1)

/-- The stored document written or `$set` by question creation and update:
all four schema fields, present. -/
def Question.to_doc (q : Question) : QuestionDoc :=
  ⟨q.quiz_id, some q.text, some q.correct_index, q.options⟩

/-- `create_question` (src/main.py lines 170–175): auth gate, format
validation of the body's `quiz_id`, then insertion under a store-generated
fresh identifier. -/
def create_question (adminToken : String) (auth : Option String) (question : Question)
    (newId : String) (store : QStore) : Except HttpError String × QStore :=
  match require_admin adminToken auth with
  | .error e => (.error e, store)
  | .ok _ =>
    match to_object_id question.quiz_id with
    | .error e => (.error e, store)
    | .ok _ => (.ok newId, store ++ [(newId, question.to_doc)])

/-- `list_questions` (src/main.py lines 178–184): format validation of the
path `quiz_id`, then equality-filtered retrieval. -/
def list_questions (quiz_id : String) (store : QStore) :
    Except HttpError (List QuestionDoc) :=
  match to_object_id quiz_id with
  | .error e => .error e
  | .ok _ => .ok (get_documents_question store quiz_id)

/-- `update_question` (src/main.py lines 187–193): a `$set` of all four
schema fields replaces the stored question document. -/
def update_question (adminToken : String) (auth : Option String) (question_id : String)
    (question : Question) (store : QStore) : Except HttpError Bool × QStore :=
  match require_admin adminToken auth with
  | .error e => (.error e, store)
  | .ok _ =>
    match to_object_id question_id with
    | .error e => (.error e, store)
    | .ok qoid =>
      let r := updateQuestionStore store qoid question
      if r.2 = 0 then (.error ⟨404, "Pertanyaan tidak ditemukan"⟩, r.1)
      else (.ok true, r.1)
where
  /-- `update_one` on the question collection: the patch carries every schema
  field, so `$set` amounts to replacing the document's fields wholesale. -/
  updateQuestionStore (store : QStore) (qoid : String) (question : Question) :
      QStore × Nat :=
    match store with
    | [] => ([], 0)
    | (i, d) :: rest =>
      if i = qoid then ((i, question.to_doc) :: rest, 1)
      else ((i, d) :: (updateQuestionStore rest qoid question).1,
            (updateQuestionStore rest qoid question).2)

/-- Round half to even (Python's `round` on an exact value), to the nearest
integer. -/
def roundHalfEven (q : ℚ) : ℤ :=
  let f : ℤ := ⌊q⌋
  let r : ℚ := q - f
  if r < 1/2 then f
  else if 1/2 < r then f + 1
  else if f % 2 = 0 then f else f + 1

/-- Python `round(x, 2)` over exact rationals: ties to even at the second
decimal, per spec §4.5 step 4. -/
def round2 (q : ℚ) : ℚ := (roundHalfEven (q * 100) : ℚ) / 100

/-- One per-question result record of the grading loop
(src/main.py lines 213–219). -/
structure ResultRecord where
  question : Option String
  your_answer : Int
  correct_answer : Option Int
  is_correct : Bool
  options : List String
deriving DecidableEq, Inhabited

/-- The grading response `{score, correct, total, results}`. -/
structure GradeResult where
  score : ℚ
  correct : Nat
  total : Nat
  results : List ResultRecord
deriving DecidableEq

/-- One iteration of the grading loop (src/main.py lines 210–219): the
submitted answer is compared with `q.get("correct_index", -1)` by integer
equality. -/
def gradeOne (a : Int) (q : QuestionDoc) : ResultRecord :=
  { question := q.text
    your_answer := a
    correct_answer := q.correct_index
    is_correct := a == q.correct_index.getD (-1)
    options := q.options }

/-- `submit_quiz` (src/main.py lines 196–232), up to and including the
computation of the response; the submission-record write is modelled
separately in `submit_quiz_with_write`. -/
def submit_quiz (store : QStore) (quiz_id : String) (answers : List Int) :
    Except HttpError GradeResult :=
  let questions := get_documents_question store quiz_id
  if questions.isEmpty then .error ⟨404, "Pertanyaan tidak ditemukan"⟩
  else if answers.length ≠ questions.length then
    .error ⟨400, "Jumlah jawaban tidak sesuai"⟩
  else
    let results := (answers.zip questions).map (fun p => gradeOne p.1 p.2)
    let correct := results.countP (fun r => r.is_correct)
    let total := questions.length
    let score := round2 (((correct : ℚ) / (total : ℚ)) * 100)
    .ok { score := score, correct := correct, total := total, results := results }

/-- The submission audit record persisted at src/main.py lines 224–230. -/
structure SubmissionRecord where
  quiz_id : String
  answers : List Int
  score : ℚ
  correct : Nat
  total : Nat
deriving DecidableEq

/-- The grading endpoint including the audit write.  Modelled from the spec:
`create_document` lives in `database.py`, which is not under `src/`; per spec
§4.5 step 5 and §7 the submission-record write is fire-and-forget — its
failure is swallowed inside the store adapter.  The store's write outcome is
exposed as `writeOk`: when the write fails no record is persisted and the
response is still returned. -/
def submit_quiz_with_write (store : QStore) (quiz_id : String) (answers : List Int)
    (writeOk : Bool) : Except HttpError GradeResult × Option SubmissionRecord :=
  match submit_quiz store quiz_id answers with
  | .error e => (.error e, none)
  | .ok g =>
    (.ok g, if writeOk then some ⟨quiz_id, answers, g.score, g.correct, g.total⟩ else none)

instance {ε α : Type} [DecidableEq ε] [DecidableEq α] : DecidableEq (Except ε α) :=
  fun a b =>
    match a, b with
    | .error e1, .error e2 =>
      if h : e1 = e2 then .isTrue (congrArg Except.error h)
      else .isFalse (fun hc => h (Except.error.inj hc))
    | .error _, .ok _ => .isFalse (fun hc => Except.noConfusion hc)
    | .ok _, .error _ => .isFalse (fun hc => Except.noConfusion hc)
    | .ok v1, .ok v2 =>
      if h : v1 = v2 then .isTrue (congrArg Except.ok h)
      else .isFalse (fun hc => h (Except.ok.inj hc))

/-- The three request shapes the auth gate rejects: missing header, a header
whose scheme is not (case-insensitively) `Bearer`, and a wrong token. -/
def authFails (adminToken : String) (auth : Option String) : Prop :=
  auth = none
  ∨ (∃ s, auth = some s ∧ startsWithL "bearer ".data (s.data.map Char.toLower) = false)
  ∨ (∃ s, auth = some s ∧ startsWithL "bearer ".data (s.data.map Char.toLower) = true
      ∧ (⟨afterFirstSpace s.data⟩ : String) ≠ adminToken)

lemma isEmpty_eq_false_of_startsWith (l : List Char)
    (h : startsWithL "bearer ".data (l.map Char.toLower) = true) : l.isEmpty = false := by
  cases l with
  | nil => exact absurd h (by decide)
  | cons c cs => rfl

lemma require_admin_eq_error (tok : String) (auth : Option String) (h : authFails tok auth) :
    require_admin tok auth = .error ⟨401, "Unauthorized"⟩ := by
  rcases h with h | ⟨s, rfl, hs⟩ | ⟨s, rfl, hs, hne⟩
  · rw [h]; simp [require_admin]
  · simp [require_admin, hs]
  · have he := isEmpty_eq_false_of_startsWith s.data hs
    simp [require_admin, hs, he, hne]

/-- Claim C9: the auth gate's scheme check is case-insensitive — every
`Authorization` value whose lower-casing begins with `"bearer "` and whose
remainder after the first space equals the admin token is accepted as admin
(e.g. `"BEARER <token>"` as well as `"bearer <token>"`). -/
theorem auth_gate_scheme_case_insensitive (adminToken s : String)
    (h1 : startsWithL "bearer ".data (s.data.map Char.toLower) = true)
    (h2 : (⟨afterFirstSpace s.data⟩ : String) = adminToken) :
    require_admin adminToken (some s) = .ok true := by
  have he := isEmpty_eq_false_of_startsWith s.data h1
  simp [require_admin, h1, he, h2]

theorem auth_gate_scheme_case_insensitive_witness :
    startsWithL "bearer ".data ("BEARER secret-admin-token".data.map Char.toLower) = true
    ∧ require_admin "secret-admin-token" (some "BEARER secret-admin-token") = .ok true :=
  ⟨by decide,
   auth_gate_scheme_case_insensitive "secret-admin-token" "BEARER secret-admin-token"
     (by decide) (by decide)⟩

/-- Claim C6: for every mutating endpoint, a request whose `Authorization`
header is missing, does not use the Bearer scheme, or carries a wrong token
fails with 401 before the handler body executes and leaves the store
untouched; a login with a wrong password is likewise surfaced as a 401
authorization failure. -/
theorem auth_gate_unauthorized (tok pw : String) (auth : Option String)
    (h : authFails tok auth) (pwd : String) (hpw : pwd ≠ pw)
    (m : Material) (v : Video) (p : Photo) (qz : Quiz) (qn : Question)
    (mid nid : String) (ms vs ps qzs : DocStore) (qns : QStore) :
    require_admin tok auth = .error ⟨401, "Unauthorized"⟩
    ∧ create_material tok auth m nid ms = (.error ⟨401, "Unauthorized"⟩, ms)
    ∧ create_video tok auth v nid vs = (.error ⟨401, "Unauthorized"⟩, vs)
    ∧ create_photo tok auth p nid ps = (.error ⟨401, "Unauthorized"⟩, ps)
    ∧ create_quiz tok auth qz nid qzs = (.error ⟨401, "Unauthorized"⟩, qzs)
    ∧ create_question tok auth qn nid qns = (.error ⟨401, "Unauthorized"⟩, qns)
    ∧ update_material tok auth mid m ms = (.error ⟨401, "Unauthorized"⟩, ms)
    ∧ update_quiz tok auth mid qz qzs = (.error ⟨401, "Unauthorized"⟩, qzs)
    ∧ update_question tok auth mid qn qns = (.error ⟨401, "Unauthorized"⟩, qns)
    ∧ login pw tok pwd = .error ⟨401, "Password salah"⟩ := by
  have hra := require_admin_eq_error tok auth h
  refine ⟨hra, ?_, ?_, ?_, ?_, ?_, ?_, ?_, ?_, ?_⟩
  · simp [create_material, hra]
  · simp [create_video, hra]
  · simp [create_photo, hra]
  · simp [create_quiz, hra]
  · simp [create_question, hra]
  · simp [update_material, hra]
  · simp [update_quiz, hra]
  · simp [update_question, hra]
  · simp [login, hpw]

theorem auth_gate_unauthorized_witness :
    require_admin "secret-admin-token" none = .error ⟨401, "Unauthorized"⟩
    ∧ create_material "secret-admin-token" none ⟨"t", "c", none, none⟩ "bbbbbbbbbbbbbbbbbbbbbbbb" []
        = (.error ⟨401, "Unauthorized"⟩, [])
    ∧ create_video "secret-admin-token" none ⟨"t", "u", none⟩ "bbbbbbbbbbbbbbbbbbbbbbbb" []
        = (.error ⟨401, "Unauthorized"⟩, [])
    ∧ create_photo "secret-admin-token" none ⟨"t", "u", none⟩ "bbbbbbbbbbbbbbbbbbbbbbbb" []
        = (.error ⟨401, "Unauthorized"⟩, [])
    ∧ create_quiz "secret-admin-token" none ⟨"t", none⟩ "bbbbbbbbbbbbbbbbbbbbbbbb" []
        = (.error ⟨401, "Unauthorized"⟩, [])
    ∧ create_question "secret-admin-token" none ⟨"aaaaaaaaaaaaaaaaaaaaaaaa", "q", ["a", "b"], 0⟩
        "bbbbbbbbbbbbbbbbbbbbbbbb" [] = (.error ⟨401, "Unauthorized"⟩, [])
    ∧ update_material "secret-admin-token" none "aaaaaaaaaaaaaaaaaaaaaaaa" ⟨"t", "c", none, none⟩ []
        = (.error ⟨401, "Unauthorized"⟩, [])
    ∧ update_quiz "secret-admin-token" none "aaaaaaaaaaaaaaaaaaaaaaaa" ⟨"t", none⟩ []
        = (.error ⟨401, "Unauthorized"⟩, [])
    ∧ update_question "secret-admin-token" none "aaaaaaaaaaaaaaaaaaaaaaaa"
        ⟨"aaaaaaaaaaaaaaaaaaaaaaaa", "q", ["a", "b"], 0⟩ [] = (.error ⟨401, "Unauthorized"⟩, [])
    ∧ login "changeme" "secret-admin-token" "wrong" = .error ⟨401, "Password salah"⟩ :=
  auth_gate_unauthorized "secret-admin-token" "changeme" none (Or.inl rfl) "wrong" (by decide)
    ⟨"t", "c", none, none⟩ ⟨"t", "u", none⟩ ⟨"t", "u", none⟩ ⟨"t", none⟩
    ⟨"aaaaaaaaaaaaaaaaaaaaaaaa", "q", ["a", "b"], 0⟩
    "aaaaaaaaaaaaaaaaaaaaaaaa" "bbbbbbbbbbbbbbbbbbbbbbbb" [] [] [] [] []

lemma submit_quiz_eq_ok (store : QStore) (qid : String) (answers : List Int)
    (qs : List QuestionDoc) (hqs : get_documents_question store qid = qs)
    (hne : qs ≠ []) (hlen : answers.length = qs.length) :
    submit_quiz store qid answers = .ok
      { score := round2 (((((answers.zip qs).map (fun p => gradeOne p.1 p.2)).countP
            (fun r => r.is_correct) : ℚ) / (qs.length : ℚ)) * 100)
        correct := ((answers.zip qs).map (fun p => gradeOne p.1 p.2)).countP
            (fun r => r.is_correct)
        total := qs.length
        results := (answers.zip qs).map (fun p => gradeOne p.1 p.2) } := by
  have he : qs.isEmpty = false := by
    cases qs with
    | nil => exact absurd rfl hne
    | cons q qt => rfl
  unfold submit_quiz
  rw [hqs]
  simp [he, hlen]

lemma results_eq_range_map (answers : List Int) (qs : List QuestionDoc)
    (h : answers.length = qs.length) :
    (answers.zip qs).map (fun p => gradeOne p.1 p.2)
      = (List.range qs.length).map
          (fun i => gradeOne (answers.getD i 0) (qs.getD i default)) := by
  induction qs generalizing answers with
  | nil =>
    cases answers with
    | nil => simp
    | cons a as => simp at h
  | cons q qt ih =>
    cases answers with
    | nil => simp at h
    | cons a as =>
      have h2 : as.length = qt.length := by simpa using h
      rw [List.zip_cons_cons, List.map_cons, ih as h2]
      rw [List.length_cons, List.range_succ_eq_map, List.map_cons, List.map_map]
      simp [Function.comp]

lemma roundHalfEven_intCast (n : ℤ) : roundHalfEven (n : ℚ) = n := by
  unfold roundHalfEven
  rw [Int.floor_intCast]
  norm_num

lemma round2_intCast (n : ℤ) : round2 (n : ℚ) = n := by
  unfold round2
  have h : ((n : ℚ) * 100) = ((n * 100 : ℤ) : ℚ) := by push_cast; ring
  rw [h, roundHalfEven_intCast]
  push_cast
  ring

lemma round2_hundred : round2 (100 : ℚ) = 100 := by
  have h := round2_intCast 100
  norm_num at h
  exact h

lemma round2_zero : round2 (0 : ℚ) = 0 := by
  have h := round2_intCast 0
  norm_num at h
  exact h

/-- Claim C2: when the question retrieval for a quiz_id returns an empty
list, grading fails with 404 Not Found, computes no score and persists
nothing — in particular the division `correct / total` with `total = 0` is
never reached. -/
theorem submit_quiz_empty_questions_not_found (store : QStore) (qid : String)
    (answers : List Int) (h : get_documents_question store qid = []) :
    submit_quiz store qid answers = .error ⟨404, "Pertanyaan tidak ditemukan"⟩
    ∧ ∀ w : Bool, submit_quiz_with_write store qid answers w
        = (.error ⟨404, "Pertanyaan tidak ditemukan"⟩, none) := by
  have h1 : submit_quiz store qid answers = .error ⟨404, "Pertanyaan tidak ditemukan"⟩ := by
    unfold submit_quiz
    rw [h]
    rfl
  refine ⟨h1, fun w => ?_⟩
  unfold submit_quiz_with_write
  rw [h1]

theorem submit_quiz_empty_questions_not_found_witness :
    get_documents_question [] "aaaaaaaaaaaaaaaaaaaaaaaa" = []
    ∧ submit_quiz [] "aaaaaaaaaaaaaaaaaaaaaaaa" [0]
        = .error ⟨404, "Pertanyaan tidak ditemukan"⟩ :=
  ⟨rfl, (submit_quiz_empty_questions_not_found [] "aaaaaaaaaaaaaaaaaaaaaaaa" [0] rfl).1⟩

/-- Claim C3: with a non-empty retrieved question list and an answers list of
different length, grading fails with the 400 validation error "Jumlah jawaban
tidak sesuai" irrespective of the answer values, and returns no score. -/
theorem submit_quiz_answer_count_mismatch (store : QStore) (qid : String)
    (answers : List Int) (qs : List QuestionDoc)
    (hqs : get_documents_question store qid = qs) (hne : qs ≠ [])
    (hlen : answers.length ≠ qs.length) :
    submit_quiz store qid answers = .error ⟨400, "Jumlah jawaban tidak sesuai"⟩
    ∧ ∀ w : Bool, submit_quiz_with_write store qid answers w
        = (.error ⟨400, "Jumlah jawaban tidak sesuai"⟩, none) := by
  have he : qs.isEmpty = false := by
    cases qs with
    | nil => exact absurd rfl hne
    | cons q qt => rfl
  have h1 : submit_quiz store qid answers = .error ⟨400, "Jumlah jawaban tidak sesuai"⟩ := by
    unfold submit_quiz
    rw [hqs]
    simp [he, hlen]
  refine ⟨h1, fun w => ?_⟩
  unfold submit_quiz_with_write
  rw [h1]

theorem submit_quiz_answer_count_mismatch_witness :
    get_documents_question [("i1", ⟨"aaaaaaaaaaaaaaaaaaaaaaaa", some "q", some 0, ["a", "b"]⟩)]
        "aaaaaaaaaaaaaaaaaaaaaaaa" = [⟨"aaaaaaaaaaaaaaaaaaaaaaaa", some "q", some 0, ["a", "b"]⟩]
    ∧ submit_quiz [("i1", ⟨"aaaaaaaaaaaaaaaaaaaaaaaa", some "q", some 0, ["a", "b"]⟩)]
        "aaaaaaaaaaaaaaaaaaaaaaaa" [0, 1] = .error ⟨400, "Jumlah jawaban tidak sesuai"⟩ :=
  ⟨by decide,
   (submit_quiz_answer_count_mismatch
     [("i1", ⟨"aaaaaaaaaaaaaaaaaaaaaaaa", some "q", some 0, ["a", "b"]⟩)]
     "aaaaaaaaaaaaaaaaaaaaaaaa" [0, 1]
     [⟨"aaaaaaaaaaaaaaaaaaaaaaaa", some "q", some 0, ["a", "b"]⟩]
     (by decide) (by decide) (by decide)).1⟩

/-- Claim C4: the persistence of the submission record is fire-and-forget —
whatever the outcome of the store write, the grading response is the one
already computed, unchanged. -/
theorem submit_quiz_write_fire_and_forget (store : QStore) (qid : String)
    (answers : List Int) (w : Bool) :
    (submit_quiz_with_write store qid answers w).1 = submit_quiz store qid answers := by
  unfold submit_quiz_with_write
  cases submit_quiz store qid answers <;> rfl

/-- Claim C1: for a quiz whose retrieval yields N ≥ 1 questions and a
submission of exactly N answers, grading returns `total = N`, `correct` = the
number of positions i at which `answers[i]` equals the i-th retrieved
question's `correct_index` (integer equality in retrieval order, a missing
field defaulting to -1), `score = round(correct / total * 100, 2)`, and a
results list of exactly N records, the i-th carrying the question text, the
submitted answer, the stored correct answer, the correctness flag and the
full options list. -/
theorem submit_quiz_grades_by_position (store : QStore) (qid : String)
    (answers : List Int) (qs : List QuestionDoc) (N : Nat)
    (hqs : get_documents_question store qid = qs) (hN : qs.length = N)
    (hpos : 1 ≤ N) (ha : answers.length = N) :
    submit_quiz store qid answers = .ok
      { score := round2 (((((List.range N).filter
            (fun i => answers.getD i 0 == (qs.getD i default).correct_index.getD
              (-1))).length : ℚ) / (N : ℚ)) * 100)
        correct := ((List.range N).filter
            (fun i => answers.getD i 0 == (qs.getD i default).correct_index.getD
              (-1))).length
        total := N
        results := (List.range N).map (fun i =>
          { question := (qs.getD i default).text
            your_answer := answers.getD i 0
            correct_answer := (qs.getD i default).correct_index
            is_correct := answers.getD i 0 == (qs.getD i default).correct_index.getD (-1)
            options := (qs.getD i default).options }) } := by
  subst hN
  have hne : qs ≠ [] := by
    intro hnil
    rw [hnil] at hpos
    simp at hpos
  rw [submit_quiz_eq_ok store qid answers qs hqs hne ha]
  have hres : (answers.zip qs).map (fun p => gradeOne p.1 p.2)
      = (List.range qs.length).map
          (fun i => gradeOne (answers.getD i 0) (qs.getD i default)) :=
    results_eq_range_map answers qs ha
  have hcnt : ((answers.zip qs).map (fun p => gradeOne p.1 p.2)).countP
        (fun r => r.is_correct)
      = ((List.range qs.length).filter
          (fun i => answers.getD i 0 == (qs.getD i default).correct_index.getD
            (-1))).length := by
    rw [hres, List.countP_map, List.countP_eq_length_filter]
    rfl
  rw [hcnt, hres]
  rfl

theorem submit_quiz_grades_by_position_witness :
    submit_quiz
      [("i1", ⟨"aaaaaaaaaaaaaaaaaaaaaaaa", some "t1", some 1, ["a", "b"]⟩),
       ("i2", ⟨"aaaaaaaaaaaaaaaaaaaaaaaa", some "t2", some 0, ["x", "y"]⟩)]
      "aaaaaaaaaaaaaaaaaaaaaaaa" [1, 0] = .ok
      { score := round2 (((((List.range 2).filter
            (fun i => List.getD [1, 0] i 0 ==
              (List.getD [(⟨"aaaaaaaaaaaaaaaaaaaaaaaa", some "t1", some 1, ["a", "b"]⟩ : QuestionDoc),
                ⟨"aaaaaaaaaaaaaaaaaaaaaaaa", some "t2", some 0, ["x", "y"]⟩] i
                default).correct_index.getD (-1))).length : ℚ) / ((2 : Nat) : ℚ)) * 100)
        correct := ((List.range 2).filter
            (fun i => List.getD [1, 0] i 0 ==
              (List.getD [(⟨"aaaaaaaaaaaaaaaaaaaaaaaa", some "t1", some 1, ["a", "b"]⟩ : QuestionDoc),
                ⟨"aaaaaaaaaaaaaaaaaaaaaaaa", some "t2", some 0, ["x", "y"]⟩] i
                default).correct_index.getD (-1))).length
        total := 2
        results := (List.range 2).map (fun i =>
          { question := (List.getD [(⟨"aaaaaaaaaaaaaaaaaaaaaaaa", some "t1", some 1, ["a", "b"]⟩ : QuestionDoc),
                ⟨"aaaaaaaaaaaaaaaaaaaaaaaa", some "t2", some 0, ["x", "y"]⟩] i default).text
            your_answer := List.getD [1, 0] i 0
            correct_answer := (List.getD [(⟨"aaaaaaaaaaaaaaaaaaaaaaaa", some "t1", some 1, ["a", "b"]⟩ : QuestionDoc),
                ⟨"aaaaaaaaaaaaaaaaaaaaaaaa", some "t2", some 0, ["x", "y"]⟩] i default).correct_index
            is_correct := List.getD [1, 0] i 0 ==
              (List.getD [(⟨"aaaaaaaaaaaaaaaaaaaaaaaa", some "t1", some 1, ["a", "b"]⟩ : QuestionDoc),
                ⟨"aaaaaaaaaaaaaaaaaaaaaaaa", some "t2", some 0, ["x", "y"]⟩] i default).correct_index.getD (-1)
            options := (List.getD [(⟨"aaaaaaaaaaaaaaaaaaaaaaaa", some "t1", some 1, ["a", "b"]⟩ : QuestionDoc),
                ⟨"aaaaaaaaaaaaaaaaaaaaaaaa", some "t2", some 0, ["x", "y"]⟩] i default).options }) } :=
  submit_quiz_grades_by_position
    [("i1", ⟨"aaaaaaaaaaaaaaaaaaaaaaaa", some "t1", some 1, ["a", "b"]⟩),
     ("i2", ⟨"aaaaaaaaaaaaaaaaaaaaaaaa", some "t2", some 0, ["x", "y"]⟩)]
    "aaaaaaaaaaaaaaaaaaaaaaaa" [1, 0]
    [⟨"aaaaaaaaaaaaaaaaaaaaaaaa", some "t1", some 1, ["a", "b"]⟩,
     ⟨"aaaaaaaaaaaaaaaaaaaaaaaa", some "t2", some 0, ["x", "y"]⟩] 2
    (by decide) (by decide) (by decide) (by decide)

/-- Claim C8: with N ≥ 1 questions and N answers, a submission in which every
answer equals its question's correct_index scores exactly 100, and one in
which every answer differs scores exactly 0. -/
theorem submit_quiz_extreme_scores (store : QStore) (qid : String)
    (answers : List Int) (qs : List QuestionDoc) (N : Nat)
    (hqs : get_documents_question store qid = qs) (hN : qs.length = N)
    (hpos : 1 ≤ N) (ha : answers.length = N) :
    ((∀ i, i < N → answers.getD i 0 = (qs.getD i default).correct_index.getD (-1)) →
      ∃ g, submit_quiz store qid answers = .ok g
        ∧ g.score = 100 ∧ g.correct = N ∧ g.total = N)
    ∧ ((∀ i, i < N → answers.getD i 0 ≠ (qs.getD i default).correct_index.getD (-1)) →
      ∃ g, submit_quiz store qid answers = .ok g
        ∧ g.score = 0 ∧ g.correct = 0 ∧ g.total = N) := by
  subst hN
  have hne : qs ≠ [] := by
    intro hnil
    rw [hnil] at hpos
    simp at hpos
  have hcast : ((qs.length : ℚ)) ≠ 0 := by
    have : qs.length ≠ 0 := by omega
    exact_mod_cast this
  have hres := results_eq_range_map answers qs ha
  constructor
  · intro hall
    have hcnt : ((answers.zip qs).map (fun p => gradeOne p.1 p.2)).countP
        (fun r => r.is_correct) = qs.length := by
      rw [hres, List.countP_map]
      have hmem : ∀ a ∈ List.range qs.length,
          ((fun r => ResultRecord.is_correct r) ∘
            (fun i => gradeOne (answers.getD i 0) (qs.getD i default))) a = true := by
        intro a hmema
        have haN : a < qs.length := List.mem_range.mp hmema
        simp only [Function.comp, gradeOne]
        exact beq_iff_eq.mpr (hall a haN)
      calc ((List.range qs.length).countP ((fun r => ResultRecord.is_correct r) ∘
              (fun i => gradeOne (answers.getD i 0) (qs.getD i default))))
          = (List.range qs.length).length := List.countP_eq_length.mpr hmem
        _ = qs.length := List.length_range qs.length
    refine ⟨_, submit_quiz_eq_ok store qid answers qs hqs hne ha, ?_, hcnt, rfl⟩
    show round2 _ = 100
    rw [hcnt, div_self hcast, one_mul, round2_hundred]
  · intro hall
    have hcnt : ((answers.zip qs).map (fun p => gradeOne p.1 p.2)).countP
        (fun r => r.is_correct) = 0 := by
      rw [hres, List.countP_map, List.countP_eq_zero]
      intro a hmema
      have haN : a < qs.length := List.mem_range.mp hmema
      simp only [Function.comp, gradeOne, beq_iff_eq]
      exact hall a haN
    refine ⟨_, submit_quiz_eq_ok store qid answers qs hqs hne ha, ?_, hcnt, rfl⟩
    show round2 _ = 0
    rw [hcnt]
    norm_num [round2_zero]

theorem submit_quiz_extreme_scores_witness :
    (∃ g, submit_quiz
        [("i1", ⟨"aaaaaaaaaaaaaaaaaaaaaaaa", some "t1", some 1, ["a", "b"]⟩),
         ("i2", ⟨"aaaaaaaaaaaaaaaaaaaaaaaa", some "t2", some 0, ["x", "y"]⟩)]
        "aaaaaaaaaaaaaaaaaaaaaaaa" [1, 0] = .ok g
      ∧ g.score = 100 ∧ g.correct = 2 ∧ g.total = 2)
    ∧ (∃ g, submit_quiz
        [("i1", ⟨"aaaaaaaaaaaaaaaaaaaaaaaa", some "t1", some 1, ["a", "b"]⟩),
         ("i2", ⟨"aaaaaaaaaaaaaaaaaaaaaaaa", some "t2", some 0, ["x", "y"]⟩)]
        "aaaaaaaaaaaaaaaaaaaaaaaa" [0, 1] = .ok g
      ∧ g.score = 0 ∧ g.correct = 0 ∧ g.total = 2) :=
  ⟨(submit_quiz_extreme_scores
      [("i1", ⟨"aaaaaaaaaaaaaaaaaaaaaaaa", some "t1", some 1, ["a", "b"]⟩),
       ("i2", ⟨"aaaaaaaaaaaaaaaaaaaaaaaa", some "t2", some 0, ["x", "y"]⟩)]
      "aaaaaaaaaaaaaaaaaaaaaaaa" [1, 0]
      [⟨"aaaaaaaaaaaaaaaaaaaaaaaa", some "t1", some 1, ["a", "b"]⟩,
       ⟨"aaaaaaaaaaaaaaaaaaaaaaaa", some "t2", some 0, ["x", "y"]⟩] 2
      (by decide) (by decide) (by decide) (by decide)).1 (by decide),
   (submit_quiz_extreme_scores
      [("i1", ⟨"aaaaaaaaaaaaaaaaaaaaaaaa", some "t1", some 1, ["a", "b"]⟩),
       ("i2", ⟨"aaaaaaaaaaaaaaaaaaaaaaaa", some "t2", some 0, ["x", "y"]⟩)]
      "aaaaaaaaaaaaaaaaaaaaaaaa" [0, 1]
      [⟨"aaaaaaaaaaaaaaaaaaaaaaaa", some "t1", some 1, ["a", "b"]⟩,
       ⟨"aaaaaaaaaaaaaaaaaaaaaaaa", some "t2", some 0, ["x", "y"]⟩] 2
      (by decide) (by decide) (by decide) (by decide)).2 (by decide)⟩

/-- Claim C10: when a stored question document lacks `correct_index`, grading
compares the submitted answer against the default value -1: an answer of -1
is graded correct for that question and any other answer incorrect. -/
theorem submit_quiz_missing_correct_index_default (store : QStore) (qid : String)
    (answers : List Int) (qs : List QuestionDoc) (i : Nat)
    (hqs : get_documents_question store qid = qs) (hne : qs ≠ [])
    (ha : answers.length = qs.length) (hi : i < qs.length)
    (hmiss : (qs.getD i default).correct_index = none) :
    ∃ g, submit_quiz store qid answers = .ok g
      ∧ g.results.getD i default =
        { question := (qs.getD i default).text
          your_answer := answers.getD i 0
          correct_answer := none
          is_correct := answers.getD i 0 == (-1 : Int)
          options := (qs.getD i default).options }
      ∧ (answers.getD i 0 = -1 → (g.results.getD i default).is_correct = true)
      ∧ (answers.getD i 0 ≠ -1 → (g.results.getD i default).is_correct = false) := by
  have hres := results_eq_range_map answers qs ha
  have key : ((answers.zip qs).map (fun p => gradeOne p.1 p.2)).getD i default
      = gradeOne (answers.getD i 0) (qs.getD i default) := by
    have hlen2 : i < ((List.range qs.length).map
        (fun j => gradeOne (answers.getD j 0) (qs.getD j default))).length := by
      simpa using hi
    rw [hres, List.getD_eq_getElem _ _ hlen2, List.getElem_map, List.getElem_range]
  have hrec : gradeOne (answers.getD i 0) (qs.getD i default) =
      { question := (qs.getD i default).text
        your_answer := answers.getD i 0
        correct_answer := none
        is_correct := answers.getD i 0 == (-1 : Int)
        options := (qs.getD i default).options } := by
    simp only [gradeOne, hmiss, Option.getD_none]
  refine ⟨_, submit_quiz_eq_ok store qid answers qs hqs hne ha, ?_, ?_, ?_⟩
  · show ((answers.zip qs).map (fun p => gradeOne p.1 p.2)).getD i default = _
    rw [key, hrec]
  · intro hv
    show (((answers.zip qs).map (fun p => gradeOne p.1 p.2)).getD i default).is_correct = true
    rw [key, hrec]
    exact beq_iff_eq.mpr hv
  · intro hv
    show (((answers.zip qs).map (fun p => gradeOne p.1 p.2)).getD i default).is_correct = false
    rw [key, hrec]
    exact beq_eq_false_iff_ne.mpr hv

theorem submit_quiz_missing_correct_index_default_witness :
    ∃ g, submit_quiz [("i1", ⟨"aaaaaaaaaaaaaaaaaaaaaaaa", some "t1", none, ["a", "b"]⟩)]
        "aaaaaaaaaaaaaaaaaaaaaaaa" [-1] = .ok g
      ∧ g.results.getD 0 default =
        { question := some "t1"
          your_answer := -1
          correct_answer := none
          is_correct := ((-1 : Int) == (-1 : Int))
          options := ["a", "b"] }
      ∧ ((-1 : Int) = -1 → (g.results.getD 0 default).is_correct = true)
      ∧ ((-1 : Int) ≠ -1 → (g.results.getD 0 default).is_correct = false) :=
  submit_quiz_missing_correct_index_default
    [("i1", ⟨"aaaaaaaaaaaaaaaaaaaaaaaa", some "t1", none, ["a", "b"]⟩)]
    "aaaaaaaaaaaaaaaaaaaaaaaa" [-1]
    [⟨"aaaaaaaaaaaaaaaaaaaaaaaa", some "t1", none, ["a", "b"]⟩] 0
    (by decide) (by decide) (by decide) (by decide) (by decide)

lemma lookupField_setField_self (d : Doc) (k : String) (v : BVal) :
    lookupField (setField d k v) k = some v := by
  induction d with
  | nil => simp [setField, lookupField]
  | cons kv rest ih =>
    obtain ⟨k0, v0⟩ := kv
    by_cases h : k0 = k
    · simp [setField, lookupField, h]
    · simp [setField, lookupField, h, ih]

lemma lookupField_setField_ne (d : Doc) (k k2 : String) (v : BVal) (h : k2 ≠ k) :
    lookupField (setField d k v) k2 = lookupField d k2 := by
  induction d with
  | nil => simp [setField, lookupField, Ne.symm h]
  | cons kv rest ih =>
    obtain ⟨k0, v0⟩ := kv
    by_cases h0 : k0 = k
    · subst h0
      simp [setField, lookupField, Ne.symm h]
    · simp only [setField, if_neg h0, lookupField]
      by_cases h2 : k0 = k2
      · simp [h2]
      · simp [h2, ih]

/-- The last binding of a field in a `$set` patch (the binding that wins when
the patch is applied left to right). -/
def lookupPatch (patch : List (String × BVal)) (k : String) : Option BVal :=
  match patch with
  | [] => none
  | (k0, v0) :: rest =>
    match lookupPatch rest k with
    | some v => some v
    | none => if k0 = k then some v0 else none

lemma lookupField_setFields_not_patch (d : Doc) (patch : List (String × BVal))
    (k : String) (h : lookupPatch patch k = none) :
    lookupField (setFields d patch) k = lookupField d k := by
  induction patch generalizing d with
  | nil => rfl
  | cons kv rest ih =>
    obtain ⟨k0, v0⟩ := kv
    simp only [lookupPatch] at h
    cases hr : lookupPatch rest k with
    | some v2 => rw [hr] at h; cases h
    | none =>
      rw [hr] at h
      have hk : k0 ≠ k := by
        intro hk0
        rw [if_pos hk0] at h
        cases h
      show lookupField (setFields (setField d k0 v0) rest) k = lookupField d k
      rw [ih (setField d k0 v0) hr]
      exact lookupField_setField_ne d k0 k v0 (fun hk2 => hk hk2.symm)

lemma lookupField_setFields_patch (d : Doc) (patch : List (String × BVal))
    (k : String) (v : BVal) (h : lookupPatch patch k = some v) :
    lookupField (setFields d patch) k = some v := by
  induction patch generalizing d with
  | nil => cases h
  | cons kv rest ih =>
    obtain ⟨k0, v0⟩ := kv
    simp only [lookupPatch] at h
    cases hr : lookupPatch rest k with
    | some v2 =>
      rw [hr] at h
      have hv : v2 = v := Option.some.inj h
      subst hv
      exact ih (setField d k0 v0) hr
    | none =>
      rw [hr] at h
      by_cases hk : k0 = k
      · rw [if_pos hk] at h
        have hv : v0 = v := Option.some.inj h
        subst hv
        subst hk
        show lookupField (setFields (setField d k0 v0) rest) k0 = some v0
        rw [lookupField_setFields_not_patch (setField d k0 v0) rest k0 hr]
        exact lookupField_setField_self d k0 v0
      · rw [if_neg hk] at h
        cases h

lemma update_one_no_match (store : DocStore) (mid : String)
    (patch : List (String × BVal)) (h : ∀ x ∈ store, x.1 ≠ mid) :
    update_one store mid patch = (store, 0) := by
  induction store with
  | nil => rfl
  | cons x rest ih =>
    obtain ⟨i, d⟩ := x
    have hi : i ≠ mid := h (i, d) (List.mem_cons_self _ _)
    simp only [update_one, if_neg hi, ih (fun y hy => h y (List.mem_cons_of_mem _ hy))]

lemma update_one_match (pre : DocStore) (mid : String) (d : Doc) (post : DocStore)
    (patch : List (String × BVal)) (hpre : ∀ x ∈ pre, x.1 ≠ mid) :
    update_one (pre ++ (mid, d) :: post) mid patch
      = (pre ++ (mid, setFields d patch) :: post, 1) := by
  induction pre with
  | nil => simp [update_one]
  | cons x rest ih =>
    obtain ⟨i, dd⟩ := x
    have hi : i ≠ mid := hpre (i, dd) (List.mem_cons_self _ _)
    simp only [List.cons_append, update_one, if_neg hi, List.append_eq,
      ih (fun y hy => hpre y (List.mem_cons_of_mem _ hy))]

lemma to_object_id_valid (s : String) (h : isValidObjectId s = true) :
    to_object_id s = .ok (strLower s) := by
  simp [to_object_id, h]

lemma to_object_id_invalid (s : String) (h : isValidObjectId s = false) :
    to_object_id s = .error ⟨400, "ID tidak valid"⟩ := by
  simp [to_object_id, h]

lemma submit_quiz_error_cases (store : QStore) (qid : String) (answers : List Int)
    (e : HttpError) (h : submit_quiz store qid answers = .error e) :
    e = ⟨404, "Pertanyaan tidak ditemukan"⟩ ∨ e = ⟨400, "Jumlah jawaban tidak sesuai"⟩ := by
  unfold submit_quiz at h
  by_cases h1 : (get_documents_question store qid).isEmpty = true
  · rw [if_pos h1] at h
    exact Or.inl (Except.error.inj h).symm
  · rw [if_neg h1] at h
    by_cases h2 : answers.length ≠ (get_documents_question store qid).length
    · rw [if_pos h2] at h
      exact Or.inr (Except.error.inj h).symm
    · rw [if_neg h2] at h
      exact Except.noConfusion h

/-- Claim C5 (amended): identifiers of the update endpoints, of question
creation and of question listing are validated before any store access — for
a malformed identifier these endpoints return 400 "ID tidak valid" with the
store untouched, for every store state.  The grading submit endpoint is the
exception: it performs no format validation on its quiz_id and never raises
the malformed-identifier error. -/
theorem identifier_validation_before_store (tok : String) (auth : Option String)
    (hauth : require_admin tok auth = .ok true)
    (i : String) (hbad : isValidObjectId i = false) :
    (∀ (m : Material) (store : DocStore),
        update_material tok auth i m store = (.error ⟨400, "ID tidak valid"⟩, store))
    ∧ (∀ (qz : Quiz) (store : DocStore),
        update_quiz tok auth i qz store = (.error ⟨400, "ID tidak valid"⟩, store))
    ∧ (∀ (qn : Question) (store : QStore),
        update_question tok auth i qn store = (.error ⟨400, "ID tidak valid"⟩, store))
    ∧ (∀ (qn : Question) (nid : String) (store : QStore), qn.quiz_id = i →
        create_question tok auth qn nid store = (.error ⟨400, "ID tidak valid"⟩, store))
    ∧ (∀ store : QStore, list_questions i store = .error ⟨400, "ID tidak valid"⟩)
    ∧ (∀ (store : QStore) (answers : List Int) (e : HttpError),
        submit_quiz store i answers = .error e → e.detail ≠ "ID tidak valid") := by
  have hto := to_object_id_invalid i hbad
  refine ⟨?_, ?_, ?_, ?_, ?_, ?_⟩
  · intro m store
    simp [update_material, hauth, hto]
  · intro qz store
    simp [update_quiz, hauth, hto]
  · intro qn store
    simp [update_question, hauth, hto]
  · intro qn nid store hqid
    simp [create_question, hauth, hqid, hto]
  · intro store
    simp [list_questions, hto]
  · intro store answers e h
    rcases submit_quiz_error_cases store i answers e h with rfl | rfl <;> decide

theorem identifier_validation_before_store_witness :
    (∀ (m : Material) (store : DocStore),
        update_material "secret-admin-token" (some "Bearer secret-admin-token") "zz" m store
          = (.error ⟨400, "ID tidak valid"⟩, store))
    ∧ (∀ (qz : Quiz) (store : DocStore),
        update_quiz "secret-admin-token" (some "Bearer secret-admin-token") "zz" qz store
          = (.error ⟨400, "ID tidak valid"⟩, store))
    ∧ (∀ (qn : Question) (store : QStore),
        update_question "secret-admin-token" (some "Bearer secret-admin-token") "zz" qn store
          = (.error ⟨400, "ID tidak valid"⟩, store))
    ∧ (∀ (qn : Question) (nid : String) (store : QStore), qn.quiz_id = "zz" →
        create_question "secret-admin-token" (some "Bearer secret-admin-token") qn nid store
          = (.error ⟨400, "ID tidak valid"⟩, store))
    ∧ (∀ store : QStore, list_questions "zz" store = .error ⟨400, "ID tidak valid"⟩)
    ∧ (∀ (store : QStore) (answers : List Int) (e : HttpError),
        submit_quiz store "zz" answers = .error e → e.detail ≠ "ID tidak valid") :=
  identifier_validation_before_store "secret-admin-token"
    (some "Bearer secret-admin-token") (by decide) "zz" (by decide)

/-- Claim C5, counterexample: the grading submit endpoint does not reject a
malformed quiz_id before the store lookup — with a question stored under the
malformed string "zz", submission is graded normally instead of failing with
Malformed Identifier (400). -/
theorem submit_quiz_skips_id_validation_cex :
    isValidObjectId "zz" = false
    ∧ submit_quiz [("i1", ⟨"zz", some "t", some 0, ["a", "b"]⟩)] "zz" [0]
        = .ok { score := 100, correct := 1, total := 1,
                results := [{ question := some "t", your_answer := 0,
                              correct_answer := some 0, is_correct := true,
                              options := ["a", "b"] }] } := by
  refine ⟨by decide, ?_⟩
  have h := submit_quiz_eq_ok [("i1", ⟨"zz", some "t", some 0, ["a", "b"]⟩)] "zz" [0]
      [⟨"zz", some "t", some 0, ["a", "b"]⟩] (by decide) (by decide) (by decide)
  rw [h]
  have hm : (([0] : List Int).zip
        [(⟨"zz", some "t", some 0, ["a", "b"]⟩ : QuestionDoc)]).map
          (fun p => gradeOne p.1 p.2)
      = [{ question := some "t", your_answer := 0, correct_answer := some 0,
           is_correct := true, options := ["a", "b"] }] := by decide
  rw [hm]
  have hcnt : List.countP (fun r => r.is_correct)
      [({ question := some "t", your_answer := 0, correct_answer := some 0,
          is_correct := true, options := ["a", "b"] } : ResultRecord)] = 1 := by decide
  rw [hcnt]
  norm_num [Except.ok.injEq, GradeResult.mk.injEq, round2_hundred]

/-- Claim C7 (amended): an authorized update of a Material or Quiz by a
well-formed identifier, when a document matches, `$set`s every field of the
request body onto the matched document — body fields take the body's values
and stored fields outside the body are preserved, so the result is a full
replacement exactly when the document had no extra fields — returns
`{updated: true}`, and does not fail when the body is identical to the
stored document; when no document matches it fails with 404. -/
theorem update_set_semantics (tok : String) (auth : Option String)
    (hauth : require_admin tok auth = .ok true)
    (mid : String) (hmid : isValidObjectId mid = true)
    (m : Material) (qz : Quiz) (d dq : Doc)
    (pre post preq postq : DocStore)
    (hpre : ∀ x ∈ pre, x.1 ≠ strLower mid)
    (hpreq : ∀ x ∈ preq, x.1 ≠ strLower mid)
    (storeM storeQ : DocStore)
    (hnoM : ∀ x ∈ storeM, x.1 ≠ strLower mid)
    (hnoQ : ∀ x ∈ storeQ, x.1 ≠ strLower mid) :
    update_material tok auth mid m (pre ++ (strLower mid, d) :: post)
        = (.ok true, pre ++ (strLower mid, setFields d m.model_dump) :: post)
    ∧ lookupField (setFields d m.model_dump) "title" = some (.vstr m.title)
    ∧ lookupField (setFields d m.model_dump) "content" = some (.vstr m.content)
    ∧ lookupField (setFields d m.model_dump) "category" = some (optStr m.category)
    ∧ lookupField (setFields d m.model_dump) "thumbnail_url" = some (optStr m.thumbnail_url)
    ∧ (∀ k, k ≠ "title" → k ≠ "content" → k ≠ "category" → k ≠ "thumbnail_url" →
        lookupField (setFields d m.model_dump) k = lookupField d k)
    ∧ update_material tok auth mid m storeM
        = (.error ⟨404, "Materi tidak ditemukan"⟩, storeM)
    ∧ update_quiz tok auth mid qz (preq ++ (strLower mid, dq) :: postq)
        = (.ok true, preq ++ (strLower mid, setFields dq qz.model_dump) :: postq)
    ∧ lookupField (setFields dq qz.model_dump) "title" = some (.vstr qz.title)
    ∧ lookupField (setFields dq qz.model_dump) "description" = some (optStr qz.description)
    ∧ (∀ k, k ≠ "title" → k ≠ "description" →
        lookupField (setFields dq qz.model_dump) k = lookupField dq k)
    ∧ update_quiz tok auth mid qz storeQ
        = (.error ⟨404, "Kuis tidak ditemukan"⟩, storeQ) := by
  have hto := to_object_id_valid mid hmid
  refine ⟨?_, ?_, ?_, ?_, ?_, ?_, ?_, ?_, ?_, ?_, ?_, ?_⟩
  · simp [update_material, hauth, hto, update_one_match pre (strLower mid) d post _ hpre]
  · exact lookupField_setFields_patch d _ _ _ (by simp [lookupPatch, Material.model_dump])
  · exact lookupField_setFields_patch d _ _ _ (by simp [lookupPatch, Material.model_dump])
  · exact lookupField_setFields_patch d _ _ _ (by simp [lookupPatch, Material.model_dump])
  · exact lookupField_setFields_patch d _ _ _ (by simp [lookupPatch, Material.model_dump])
  · intro k h1 h2 h3 h4
    exact lookupField_setFields_not_patch d _ _
      (by simp [lookupPatch, Material.model_dump, Ne.symm h1, Ne.symm h2, Ne.symm h3,
        Ne.symm h4])
  · simp [update_material, hauth, hto, update_one_no_match storeM _ _ hnoM]
  · simp [update_quiz, hauth, hto, update_one_match preq (strLower mid) dq postq _ hpreq]
  · exact lookupField_setFields_patch dq _ _ _ (by simp [lookupPatch, Quiz.model_dump])
  · exact lookupField_setFields_patch dq _ _ _ (by simp [lookupPatch, Quiz.model_dump])
  · intro k h1 h2
    exact lookupField_setFields_not_patch dq _ _
      (by simp [lookupPatch, Quiz.model_dump, Ne.symm h1, Ne.symm h2])
  · simp [update_quiz, hauth, hto, update_one_no_match storeQ _ _ hnoQ]

theorem update_set_semantics_witness :
    update_material "secret-admin-token" (some "Bearer secret-admin-token")
        "aaaaaaaaaaaaaaaaaaaaaaaa" ⟨"T2", "C2", none, none⟩
        ([] ++ (strLower "aaaaaaaaaaaaaaaaaaaaaaaa", [("legacy", BVal.vint 7)]) :: [])
      = (.ok true, [] ++ (strLower "aaaaaaaaaaaaaaaaaaaaaaaa",
          setFields [("legacy", BVal.vint 7)]
            (Material.model_dump ⟨"T2", "C2", none, none⟩)) :: [])
    ∧ lookupField (setFields [("legacy", BVal.vint 7)]
        (Material.model_dump ⟨"T2", "C2", none, none⟩)) "title" = some (.vstr "T2")
    ∧ lookupField (setFields [("legacy", BVal.vint 7)]
        (Material.model_dump ⟨"T2", "C2", none, none⟩)) "content" = some (.vstr "C2")
    ∧ lookupField (setFields [("legacy", BVal.vint 7)]
        (Material.model_dump ⟨"T2", "C2", none, none⟩)) "category" = some (optStr none)
    ∧ lookupField (setFields [("legacy", BVal.vint 7)]
        (Material.model_dump ⟨"T2", "C2", none, none⟩)) "thumbnail_url" = some (optStr none)
    ∧ (∀ k, k ≠ "title" → k ≠ "content" → k ≠ "category" → k ≠ "thumbnail_url" →
        lookupField (setFields [("legacy", BVal.vint 7)]
          (Material.model_dump ⟨"T2", "C2", none, none⟩)) k
          = lookupField [("legacy", BVal.vint 7)] k)
    ∧ update_material "secret-admin-token" (some "Bearer secret-admin-token")
        "aaaaaaaaaaaaaaaaaaaaaaaa" ⟨"T2", "C2", none, none⟩ []
      = (.error ⟨404, "Materi tidak ditemukan"⟩, [])
    ∧ update_quiz "secret-admin-token" (some "Bearer secret-admin-token")
        "aaaaaaaaaaaaaaaaaaaaaaaa" ⟨"T3", none⟩
        ([] ++ (strLower "aaaaaaaaaaaaaaaaaaaaaaaa", [("legacy", BVal.vint 7)]) :: [])
      = (.ok true, [] ++ (strLower "aaaaaaaaaaaaaaaaaaaaaaaa",
          setFields [("legacy", BVal.vint 7)] (Quiz.model_dump ⟨"T3", none⟩)) :: [])
    ∧ lookupField (setFields [("legacy", BVal.vint 7)]
        (Quiz.model_dump ⟨"T3", none⟩)) "title" = some (.vstr "T3")
    ∧ lookupField (setFields [("legacy", BVal.vint 7)]
        (Quiz.model_dump ⟨"T3", none⟩)) "description" = some (optStr none)
    ∧ (∀ k, k ≠ "title" → k ≠ "description" →
        lookupField (setFields [("legacy", BVal.vint 7)]
          (Quiz.model_dump ⟨"T3", none⟩)) k = lookupField [("legacy", BVal.vint 7)] k)
    ∧ update_quiz "secret-admin-token" (some "Bearer secret-admin-token")
        "aaaaaaaaaaaaaaaaaaaaaaaa" ⟨"T3", none⟩ []
      = (.error ⟨404, "Kuis tidak ditemukan"⟩, []) :=
  update_set_semantics "secret-admin-token" (some "Bearer secret-admin-token")
    (by decide) "aaaaaaaaaaaaaaaaaaaaaaaa" (by decide)
    ⟨"T2", "C2", none, none⟩ ⟨"T3", none⟩
    [("legacy", BVal.vint 7)] [("legacy", BVal.vint 7)]
    [] [] [] [] (by decide) (by decide) [] [] (by decide) (by decide)

/-- Claim C7, counterexample: the update is a `$set`, not a full replacement —
a stored Material document carrying an extra field "legacy" keeps that field
after an authorized update, so the stored document does not contain exactly
the fields of the request body. -/
theorem update_material_full_replace_cex :
    update_material "secret-admin-token" (some "Bearer secret-admin-token")
        "aaaaaaaaaaaaaaaaaaaaaaaa" ⟨"T2", "C2", none, none⟩
        [("aaaaaaaaaaaaaaaaaaaaaaaa",
          [("title", BVal.vstr "T"), ("content", BVal.vstr "C"), ("category", BVal.vnull),
           ("thumbnail_url", BVal.vnull), ("legacy", BVal.vint 7)])]
      = (.ok true,
         [("aaaaaaaaaaaaaaaaaaaaaaaa",
           [("title", BVal.vstr "T2"), ("content", BVal.vstr "C2"), ("category", BVal.vnull),
            ("thumbnail_url", BVal.vnull), ("legacy", BVal.vint 7)])])
    ∧ lookupField
        [("title", BVal.vstr "T2"), ("content", BVal.vstr "C2"), ("category", BVal.vnull),
         ("thumbnail_url", BVal.vnull), ("legacy", BVal.vint 7)] "legacy"
        = some (BVal.vint 7)
    ∧ lookupField (Material.model_dump ⟨"T2", "C2", none, none⟩) "legacy" = none := by
  refine ⟨by decide, by decide, by decide⟩
